import Mathlib

/-!
Verification development for an Ethereum wallet utility (a single
`Wallet` class exposing createWallet, estimateFees, send, getBalance,
generateAddress, getTransaction and subscribe). The TypeScript source is
shallowly embedded in Lean: the arbitrary-precision arithmetic of the
JavaScript libraries (bn.js via web3.utils.toBN, bignumber.js, the
ethjs-unit conversions behind toWei) is modelled over Nat and Int, the
IEEE-754 double produced by a JavaScript Number coercion is modelled by
explicit round-to-nearest-even over Nat, external RPC results are passed
in as explicit environment records, and the JavaScript string primitives
the source relies on are re-implemented over `List Char` (the wallet only
ever handles ASCII data: hexadecimal addresses, decimal amount strings,
mnemonic word lists).
-/

namespace EthWalletUtil

/-- Whitespace test modelling the JavaScript regular expression class \s
restricted to the ASCII range (space, tab, line feed, vertical tab, form
feed, carriage return); mnemonic phrases are ASCII word lists. -/
def isWsChar (c : Char) : Bool :=
  c == ' ' || c == '\t' || c == '\n' || c == '\x0b' || c == '\x0c' || c == '\r'

/-- Trim of leading and trailing whitespace, modelling
String.prototype.trim on ASCII input. -/
def trimChars (cs : List Char) : List Char :=
  ((cs.dropWhile isWsChar).reverse.dropWhile isWsChar).reverse

/-- ASCII lowercase conversion of one character, modelling
String.prototype.toLowerCase on the ASCII data the wallet handles. -/
def charLowerAscii (c : Char) : Char :=
  if 'A' ≤ c ∧ c ≤ 'Z' then Char.ofNat (c.toNat + 32) else c

/-- ASCII lowercase conversion of a string. -/
def toLowerAscii (s : String) : String :=
  String.mk (s.data.map charLowerAscii)

/-- Numeric value of a list of decimal digit characters (most
significant first); the empty list denotes 0, as in bn.js where the
missing fraction of ethjs-unit is replaced by the digit 0. -/
def natOfDigits (cs : List Char) : Nat :=
  cs.foldl (fun acc c => acc * 10 + (c.toNat - 48)) 0

/-- Decimal digit character for a value below 10. -/
def digitChar (d : Nat) : Char := Char.ofNat (48 + d)

/-- Fuel-bounded most-significant-first decimal digit expansion; 100
digits of fuel cover every value below 10 ^ 100, far beyond the 2 ^ 256
range of the ledger. -/
def natDecAux (fuel : Nat) (n : Nat) : List Char :=
  match fuel with
  | 0 => []
  | f + 1 => if n < 10 then [digitChar n] else natDecAux f (n / 10) ++ [digitChar (n % 10)]

/-- Decimal rendering of a natural number, modelling the JavaScript
number-to-string conversion for non-negative integers. -/
def natToDec (n : Nat) : String := String.mk (natDecAux 100 n)

/-- Hexadecimal digit test for a lowercased string, modelling the
character class [0-9a-f]. -/
def isHexDigitChar (c : Char) : Bool :=
  c.isDigit || ('a' ≤ c && c ≤ 'f')

/-- Value of one lowercase hexadecimal digit character. -/
def hexDigitVal (c : Char) : Nat :=
  if c.isDigit then c.toNat - 48 else c.toNat - 87

/-- Numeric value of a list of lowercase hexadecimal digit characters. -/
def natOfHexDigits (cs : List Char) : Nat :=
  cs.foldl (fun acc c => acc * 16 + hexDigitVal c) 0

/-- Lowercase hexadecimal digit character for a value below 16. -/
def hexChar (d : Nat) : Char :=
  if d < 10 then Char.ofNat (48 + d) else Char.ofNat (87 + d)

/-- Fuel-bounded most-significant-first hexadecimal digit expansion. -/
def natHexAux (fuel : Nat) (n : Nat) : List Char :=
  match fuel with
  | 0 => []
  | f + 1 => if n < 16 then [hexChar n] else natHexAux f (n / 16) ++ [hexChar (n % 16)]

/-- Hexadecimal digit list of a natural number, no leading zeros. -/
def natToHex (n : Nat) : List Char := natHexAux 100 n

/-- Left padding with the digit 0 to a given width, as in the ABI word
encoding of call arguments. -/
def padLeftZeros (cs : List Char) (width : Nat) : List Char :=
  List.replicate (width - cs.length) '0' ++ cs

/-- Removal of trailing zero characters, as bignumber.js toString does
for the fractional part of a decimal rendering. -/
def stripTrailingZeros (cs : List Char) : List Char :=
  (cs.reverse.dropWhile (fun c => c == '0')).reverse

/-- Accumulator worker for splitting a character list on runs of
whitespace. -/
def splitWsAux (cs : List Char) (acc : List Char) : List (List Char) :=
  match cs with
  | [] => if acc.isEmpty then [] else [acc.reverse]
  | c :: rest =>
    if isWsChar c then
      if acc.isEmpty then splitWsAux rest [] else acc.reverse :: splitWsAux rest []
    else splitWsAux rest (c :: acc)

/-- Word list of a phrase, modelling `phrase.trim().split(/\s+/g)` from
the source isValidMnemonic. On a non-empty trimmed phrase the two agree
exactly; on the all-whitespace phrase the JavaScript call yields one
empty word where this yields none, and both counts are below 12, so the
validity verdict agrees on every input. -/
def splitWs (s : String) : List (List Char) := splitWsAux (trimChars s.data) []

/-- Accumulator worker for splitting a character list at every dot,
keeping empty segments, as String.prototype.split(".") does. -/
def splitDotsAux (cs : List Char) (acc : List Char) : List (List Char) :=
  match cs with
  | [] => [acc.reverse]
  | c :: rest =>
    if c == '.' then acc.reverse :: splitDotsAux rest []
    else splitDotsAux rest (c :: acc)

/-- Split of a character list at every dot, keeping empty segments. -/
def splitDots (cs : List Char) : List (List Char) := splitDotsAux cs []

/-- UTF-8 byte sequence of one Unicode code point. -/
def utf8Char (n : Nat) : List Nat :=
  if n < 128 then [n]
  else if n < 2048 then [192 + n / 64, 128 + n % 64]
  else if n < 65536 then [224 + n / 4096, 128 + n / 64 % 64, 128 + n % 64]
  else [240 + n / 262144, 128 + n / 4096 % 64, 128 + n / 64 % 64, 128 + n % 64]

/-- UTF-8 byte sequence of a string, modelling Buffer.from(s) with the
default utf8 encoding (the decoding the source applies to a
caller-supplied raw private key string). -/
def utf8Bytes (s : String) : List Nat :=
  (s.data.map (fun c => utf8Char c.toNat)).flatten

/-- Lowercase hexadecimal rendering of a byte list, two digits per byte,
modelling Buffer.prototype.toString with the hex encoding. -/
def bytesToHex (bs : List Nat) : String :=
  String.mk ((bs.map (fun b => [hexChar (b / 16 % 16), hexChar (b % 16)])).flatten)

/-- Network selector of the wallet, from types.ts. -/
inductive NetTypes where
  | MAIN
  | TEST
deriving DecidableEq

/-- Wallet variants, from types.ts. -/
inductive WalletTypes where
  | DEFAULT
  | HD
  | MULTISIG
deriving DecidableEq

/-- Key node of the hierarchical wallet (the hdkey library): a private
and a public key, each a byte sequence. -/
structure HdNode where
  privateKey : List Nat
  publicKey : List Nat
deriving DecidableEq

/-- External cryptographic primitives used by the wallet (bip39, hdkey,
ethereumjs-util). Each is a deterministic pure function of its input;
the embedding abstracts over their concrete values. -/
structure Crypto where
  mnemonicToSeed : String → List Nat
  fromMasterSeed : List Nat → HdNode
  derive : HdNode → String → HdNode
  privateToPublic : List Nat → List Nat
  publicToAddress : List Nat → List Nat
  toChecksumAddress : String → String

/-- Wallet record returned by createWallet and generateAddress, from
types.ts (the mnemonics field, optional in the interface, is set by
every code path of the source). -/
structure IWallet where
  privateKey : String
  mnemonics : String
  address : String
  checkSumAddress : String
  publicKey : String
deriving DecidableEq

/-- Options of createWallet, from types.ts. -/
structure ICreateWalletOptions where
  type : Option WalletTypes
  privateKey : Option String
  mnemonics : Option String

/-- DEFAULT_DERIVATION_PATH of the Wallet class. The string is
m/44h/60h/0h/0/0 where h stands for the hardened-index mark written via
the \x27 escape. -/
def DEFAULT_DERIVATION_PATH : String := "m/44\x27/60\x27/0\x27/0/0"

/-- Mnemonic actually used by createWallet: the caller-supplied phrase
when present and truthy (the JavaScript || operator treats the empty
string as falsy), else the freshly generated one. Models
`opts?.mnemonics || generateMnemonic()` with the randomly generated
phrase passed in explicitly as fresh. -/
def resolveMnemonics (opts : Option ICreateWalletOptions) (fresh : String) : String :=
  match opts with
  | none => fresh
  | some o =>
    match o.mnemonics with
    | none => fresh
    | some m => if m = "" then fresh else m

/-- Shallow embedding of Wallet.createWallet. The random mnemonic from
generateMnemonic is passed in as fresh; the cryptographic primitives are
the fields of c. Buffer.from(opts.privateKey) decodes the supplied
string with the default utf8 encoding, which the embedding preserves;
a supplied but empty private key string is falsy under the JavaScript
conditional operator, so the derived key is used in that case. -/
def createWallet (c : Crypto) (fresh : String) (opts : Option ICreateWalletOptions) :
    Except String IWallet :=
  if (opts.bind (·.type)) = some WalletTypes.MULTISIG then
    .error "Wallet type not supported yet."
  else
    let mnemonics := resolveMnemonics opts fresh
    let seed := c.mnemonicToSeed mnemonics
    let root := c.fromMasterSeed seed
    let addressNode := c.derive root DEFAULT_DERIVATION_PATH
    let privateKey :=
      match opts.bind (·.privateKey) with
      | some pk => if pk = "" then addressNode.privateKey else utf8Bytes pk
      | none => addressNode.privateKey
    let pubKey := c.privateToPublic privateKey
    let address := "0x" ++ bytesToHex (c.publicToAddress pubKey)
    let checkSumAddress := c.toChecksumAddress address
    .ok { address := address, checkSumAddress := checkSumAddress,
          publicKey := bytesToHex addressNode.publicKey,
          privateKey := bytesToHex privateKey, mnemonics := mnemonics }

/-- Shallow embedding of Wallet.isValidMnemonic:
`phrase.trim().split(/\s+/g).length >= 12`. -/
def isValidMnemonic (phrase : String) : Bool :=
  decide (12 ≤ (splitWs phrase).length)

/-- Derivation path used by generateAddress for a given index: the
default path with the terminal address-index component replaced. -/
def derivationPathFor (derivationIndex : Nat) : String :=
  "m/44\x27/60\x27/0\x27/0/" ++ natToDec derivationIndex

/-- Shallow embedding of Wallet.generateAddress; the derivation index
defaults to 1 as in the source signature. -/
def generateAddress (c : Crypto) (mnemonics : String) (derivationIndex : Nat := 1) :
    Except String IWallet :=
  if !isValidMnemonic mnemonics then .error "Invalid Mnemonics"
  else
    let root := c.fromMasterSeed (c.mnemonicToSeed mnemonics)
    let masterPrivateKey := bytesToHex root.privateKey
    let masterPublicKey := bytesToHex root.publicKey
    let addressNode := c.derive root (derivationPathFor derivationIndex)
    let pubKey := c.privateToPublic addressNode.privateKey
    let address := "0x" ++ bytesToHex (c.publicToAddress pubKey)
    let checkSumAddress := c.toChecksumAddress address
    .ok { address := address, checkSumAddress := checkSumAddress,
          publicKey := masterPublicKey, privateKey := masterPrivateKey,
          mnemonics := mnemonics }

/-- Strip of one leading 0x mark from an already lowercased character
list, modelling the strip-hex-prefix package used by number-to-bn. -/
def stripHexMark (cs : List Char) : List Char :=
  match cs with
  | '0' :: 'x' :: rest => rest
  | _ => cs

/-- Shallow embedding of web3.utils.toBN, which delegates to the
number-to-bn package for string input: lowercase and trim, record a 0x
or -0x prefix, strip the prefix and an optional sign (an empty remainder
becomes the digit 0), then parse the remainder in base 16 when it is
hexadecimal and not purely decimal, purely made of letter digits, or
hexadecimal and prefixed, and in base 10 when it is purely decimal and
unprefixed. Every other string raises — in particular a fractional
decimal string such as 1.5 — and none models the raised error. A doubly
signed string, which number-to-bn would negate twice, is treated as an
error here; no wallet call path produces one. -/
def toBN (arg : String) : Option Int :=
  let s := trimChars (toLowerAscii arg).data
  let isHexPrefixed :=
    match s with
    | '0' :: 'x' :: _ => true
    | '-' :: '0' :: 'x' :: _ => true
    | _ => false
  let s1 := stripHexMark s
  let neg :=
    match s1 with
    | '-' :: _ => true
    | _ => false
  let s2 :=
    match s1 with
    | '-' :: rest => stripHexMark rest
    | _ => s1
  let s3 := if s2.isEmpty then ['0'] else s2
  let isDec := s3.all Char.isDigit
  let isHex := s3.all isHexDigitChar
  let isAlphaHex := s3.all fun c => 'a' ≤ c && c ≤ 'f'
  let sign : Int := if neg then -1 else 1
  if (!isDec && isHex) || isAlphaHex || (isHexPrefixed && isHex) then
    some (sign * (natOfHexDigits s3 : Int))
  else if isDec && !isHexPrefixed then
    some (sign * (natOfDigits s3 : Int))
  else none

/-- Shallow embedding of web3.utils.toWei, which delegates to the
ethjs-unit package: the input must match the numeric pattern (an
optional leading minus sign and then at least one digit or dot
character), a lone dot or more than one dot raises, the fractional part
may carry at most baseLength digits, and the value is the whole part
times 10 ^ baseLength plus the fraction padded with trailing zeros to
baseLength digits. none models the raised error. The source calls this
with the ether unit, whose base length is 18. -/
def toWeiInt (etherInput : String) (baseLength : Nat) : Option Int :=
  let cs := etherInput.data
  let negative :=
    match cs with
    | '-' :: _ => true
    | _ => false
  let ether :=
    match cs with
    | '-' :: rest => rest
    | _ => cs
  if ether.isEmpty then none
  else if !(ether.all fun c => c.isDigit || c == '.') then none
  else if ether = ['.'] then none
  else
    match splitDots ether with
    | [w] =>
      let wv : Int := (natOfDigits w * 10 ^ baseLength : Nat)
      some (if negative then -wv else wv)
    | [w, f] =>
      if baseLength < f.length then none
      else
        let wei : Int :=
          (natOfDigits w * 10 ^ baseLength + natOfDigits f * 10 ^ (baseLength - f.length) : Nat)
        some (if negative then -wei else wei)
    | _ => none

/-- Token registry entry, from types.ts (TToken). The registry module
itself (the per-network erc20Tokens table) is consumed as an external
lookup table and passed in through the environment records. -/
structure TToken where
  symbol : String
  name : String
  contractAddress : String
  decimals : Nat
  description : String
  url : String
deriving DecidableEq

/-- Transaction estimate returned by estimateFees, from types.ts
(IEstimate). The source renders nonce and value as hexadecimal strings
via utils.toHex; the embedding keeps the numeric values themselves (the
rendering is injective on them) and keeps the optional data field as the
encoded call string. The value is an Int because toWei accepts signed
amounts. -/
structure IEstimate where
  nonce : Nat
  toAddr : String
  value : Int
  gasLimit : Nat
  gasPrice : Nat
  data : Option String
deriving DecidableEq

/-- Shallow embedding of Wallet.isEth: strict equality with the eth
member of the TokenTypes string enum. -/
def isEth (token : String) : Bool := token == "eth"

/-- ABI encoding of an ERC-20 transfer(recipient, value) call, modelling
contract.methods.transfer(to, value.toString()).encodeABI(): the 4-byte
transfer selector a9059cbb followed by the recipient address and the
value, each padded to a 32-byte word of 64 hexadecimal digits. The ABI
encoder is an external collaborator; this concrete model keeps what the
claims need — the encoding embeds the converted value word and is never
empty. A negative value never reaches the encoder in the modelled
claims. -/
def encodeTransfer (toAddr : String) (value : Int) : String :=
  let addrWord := padLeftZeros (stripHexMark (toLowerAscii toAddr).data) 64
  let valueWord := padLeftZeros (natToHex value.toNat) 64
  "0xa9059cbb" ++ String.mk addrWord ++ String.mk valueWord

/-- External results consumed by estimateFees: the transaction count of
the sender (eth.getTransactionCount), the current gas price
(eth.getGasPrice), the gas estimate the node returns for the descriptor
(eth.estimateGas), and the token registry rows of the active network
(the erc20Tokens table). -/
structure ChainEnv where
  trxCount : Nat
  gasPrice : Nat
  estimateGas : Nat
  tokens : List TToken

/-- Shallow embedding of Wallet.estimateFees. The token branch looks the
symbol up case-insensitively in the registry (an unknown symbol degrades
to an empty contract address and 18 decimals), converts the amount with
utils.toBN — which raises on a fractional decimal string — multiplies by
10 to the token decimals with exact bn.js integer arithmetic, and
returns a descriptor with the contract as recipient, zero value and the
encoded transfer call as data. The native branch converts the amount
with utils.toWei and returns a plain value transfer carrying no data
field. none models a raised conversion error. -/
def estimateFees (env : ChainEnv) (fromAddr toAddr amount : String)
    (token : Option String) : Option IEstimate :=
  let nonce := env.trxCount
  let gasPrice := env.gasPrice
  let tokenBranch : String → Option IEstimate := fun tk =>
    let t := env.tokens.find? fun x => x.symbol == toLowerAscii tk
    let contractAddress :=
      match t with
      | some x => x.contractAddress
      | none => ""
    match toBN amount with
    | none => none
    | some a =>
      let decimal : Nat :=
        match t with
        | some x => x.decimals
        | none => 18
      let value := a * (10 : Int) ^ decimal
      some { nonce := nonce, toAddr := contractAddress, value := 0,
             gasLimit := env.estimateGas, gasPrice := gasPrice,
             data := some (encodeTransfer toAddr value) }
  let nativeBranch : Option IEstimate :=
    match toWeiInt amount 18 with
    | none => none
    | some v =>
      some { nonce := nonce, toAddr := toAddr, value := v,
             gasLimit := env.estimateGas, gasPrice := gasPrice, data := none }
  match token with
  | some tk => if !isEth tk then tokenBranch tk else nativeBranch
  | none => nativeBranch

/-- Fuel-bounded search for the number of low-order binary digits an
integer carries beyond 53 significant bits; 1024 steps of fuel cover the
full exponent range of an IEEE-754 double. -/
def floatShiftAux (fuel : Nat) (e : Nat) (n : Nat) : Nat :=
  match fuel with
  | 0 => e
  | f + 1 => if n < 2 ^ (53 + e) then e else floatShiftAux f (e + 1) n

/-- Number of low-order binary digits of n beyond 53 significant bits. -/
def floatShift (n : Nat) : Nat := floatShiftAux 1024 0 n

/-- Round-to-nearest-even of a natural number to 53 significant binary
digits: the value of the IEEE-754 double produced by the JavaScript
Number coercion of an integer-valued input. It is the identity below
2 ^ 53 and free of overflow for every value below 2 ^ 1024, which covers
the full 2 ^ 256 ledger range. -/
def jsNumberRound (n : Nat) : Nat :=
  let e := floatShift n
  if e = 0 then n
  else
    let q := n / 2 ^ e
    let r := n % 2 ^ e
    let half := 2 ^ (e - 1)
    let q2 := if half < r ∨ (r = half ∧ q % 2 = 1) then q + 1 else q
    q2 * 2 ^ e

/-- Exact decimal rendering of value / 10 ^ decimals with the fraction
trimmed of trailing zeros, modelling both the bignumber.js quotient with
its toString and the web3 fromWei conversion of the native branch. Both
are exact renderings here: a division by 10 ^ d with d at most 20 stays
inside the default 20 decimal places of bignumber.js, and the values the
claims evaluate stay below the 10 ^ 21 threshold at which the
bignumber.js toString switches to exponential notation. -/
def decimalString (value : Nat) (decimals : Nat) : String :=
  let ip := value / 10 ^ decimals
  let fp := value % 10 ^ decimals
  if fp = 0 then natToDec ip
  else
    let fracDigits := stripTrailingZeros (padLeftZeros (natDecAux 100 fp) decimals)
    natToDec ip ++ "." ++ String.mk fracDigits

/-- External results consumed by getBalance: the token registry rows of
the active network, the wei balance returned by eth.getBalance and the
raw base-unit token balance returned by the balanceOf accessor of the
token contract. -/
structure BalanceEnv where
  tokens : List TToken
  weiBalance : Nat
  tokenBalance : Nat

/-- Shallow embedding of Wallet.getBalance. The token branch coerces the
raw balance through the JavaScript Number constructor — an IEEE-754
double, modelled by jsNumberRound — before dividing by 10 to the token
decimals with bignumber.js; the expression `token?.decimals || 18` makes
both an unknown token and a registered token with 0 decimals fall back
to 18 decimals. The native branch converts the wei balance with
utils.fromWei. -/
def getBalance (env : BalanceEnv) (address : String) (token : Option String) : String :=
  match token with
  | some tk =>
    if !isEth tk then
      let t := env.tokens.find? fun x => x.symbol == toLowerAscii tk
      let decimals : Nat :=
        match t with
        | some x => if x.decimals = 0 then 18 else x.decimals
        | none => 18
      decimalString (jsNumberRound env.tokenBalance) decimals
    else decimalString env.weiBalance 18
  | none => decimalString env.weiBalance 18

/-- Transaction record returned by eth.getTransaction, from types.ts
(ITransaction). The field written `from` in the source is named fromAddr
here because from is a reserved word in Lean; the recipient is optional
because the node reports null for a contract-creation transaction, which
is exactly what the truthiness guard of the monitor tests. -/
structure ITransaction where
  blockHash : String
  blockNumber : Nat
  fromAddr : String
  gas : Nat
  gasPrice : Nat
  hash : String
  input : String
  nonce : Nat
  toAddr : Option String
  transactionIndex : Nat
  value : Nat
deriving DecidableEq

/-- Events emitted by the wallet, from the EventType enum of types.ts,
carrying the payloads subscribe emits with them. -/
inductive MonitorEvent where
  | DATA (hash : String)
  | NEW_PAYMENT (tx : ITransaction)
  | UNCONFIRMED (err : String) (hash : String)
deriving DecidableEq

/-- Events emitted by the delayed recheck body inside subscribe for one
observed hash. The recheck argument is the outcome of the
eth.getTransaction promise: a rejection (caught and emitted as
UNCONFIRMED with the error and the hash), a resolution with null — the
node does not know the hash, e.g. a dropped or replaced transaction — or
a resolution with a transaction record. A resolved transaction is
emitted as NEW_PAYMENT exactly when it passes the guard
`tx && tx.to && vault.includes(tx.to)`: the transaction is truthy, its
recipient is truthy (neither null nor the empty string) and the raw
recipient string is an element of the watched vault. Every other outcome
emits nothing. -/
def subscribeRecheckEvents (vault : List String) (hash : String)
    (recheck : Except String (Option ITransaction)) : List MonitorEvent :=
  match recheck with
  | .error e => [.UNCONFIRMED e hash]
  | .ok none => []
  | .ok (some tx) =>
    match tx.toAddr with
    | none => []
    | some a => if a != "" && vault.contains a then [.NEW_PAYMENT tx] else []

/-- Full event sequence subscribe emits for one observed pending hash:
DATA immediately on observation, then whatever the delayed recheck
emits. -/
def subscribeHashEvents (vault : List String) (hash : String)
    (recheck : Except String (Option ITransaction)) : List MonitorEvent :=
  .DATA hash :: subscribeRecheckEvents vault hash recheck

/-- Mutable state of a Wallet instance relevant to network selection:
the net field and the two web3 providers, each represented by the
endpoint URL it was constructed around. -/
structure WalletState where
  net : NetTypes
  provider : String
  socketProvider : String
deriving DecidableEq

/-- HTTP endpoint the constructor builds the provider from. -/
def httpProviderUrl (net : NetTypes) : String :=
  "https://" ++ (if net = NetTypes.MAIN then "mainnet" else "ropsten") ++
    ".infura.io/v3/c01fb7971b8747c58f5035e4a5a7f6d2"

/-- Websocket endpoint the constructor builds the socket provider
from. -/
def wsProviderUrl (net : NetTypes) : String :=
  "wss://" ++ (if net = NetTypes.MAIN then "mainnet" else "ropsten") ++
    ".infura.io/ws/v3/c0c01fb7971b8747c58f5035e4a5a7f6d21fb7971b8747c58f5035e4a5a7f6d2"

/-- Shallow embedding of the Wallet constructor: store the requested net
and build both providers from it. -/
def mkWallet (net : NetTypes) : WalletState :=
  { net := net, provider := httpProviderUrl net, socketProvider := wsProviderUrl net }

/-- Shallow embedding of Wallet.setNet: assign the net field and nothing
else. -/
def setNet (w : WalletState) (net : NetTypes) : WalletState :=
  { w with net := net }

/-- Chain tag send passes to the ethereumjs-tx constructor, from
`this.net === NetTypes.MAIN ? "mainnet" : "ropsten"`. -/
def chainOf (net : NetTypes) : String :=
  if net = NetTypes.MAIN then "mainnet" else "ropsten"

/-- Network-relevant projection of Wallet.send: the chain identifier the
transaction is signed against and the endpoint the raw transaction is
broadcast through (send signs against chainOf of the current net field
and broadcasts via this.provider through sendSignedTransaction). -/
def sendChannel (w : WalletState) : String × String :=
  (chainOf w.net, w.provider)

/-- Concrete stand-in for the external cryptographic primitives, used to
instantiate theorems that quantify over every Crypto record. -/
def cryptoEx : Crypto :=
  { mnemonicToSeed := fun s => utf8Bytes s,
    fromMasterSeed := fun seed => { privateKey := seed, publicKey := 2 :: seed },
    derive := fun node path => { privateKey := node.privateKey ++ utf8Bytes path,
                                 publicKey := node.publicKey ++ utf8Bytes path },
    privateToPublic := fun k => 4 :: k,
    publicToAddress := fun k => k.drop 1,
    toChecksumAddress := fun s => s }

/-- Concrete 12-word mnemonic phrase for instantiations. -/
def mnemonic12 : String :=
  "abandon ability able about above absent absorb abstract absurd abuse access accident"

/-- Concrete createWallet options supplying a mnemonic and no raw
private key. -/
def optsDet : ICreateWalletOptions :=
  { type := none, privateKey := none, mnemonics := some mnemonic12 }

/-- Concrete createWallet options supplying a raw private key string
alongside a mnemonic. -/
def optsRaw : ICreateWalletOptions :=
  { type := some WalletTypes.DEFAULT, privateKey := some "deadbeef", mnemonics := some mnemonic12 }

/-- Concrete registry row: the USDT token with 6 decimals, as in the
per-network token table consumed by the wallet. -/
def usdtToken : TToken :=
  { symbol := "usdt", name := "Tether USD",
    contractAddress := "0xdac17f958d2ee523a2206206994597c13d831ec7",
    decimals := 6, description := "", url := "" }

/-- Concrete estimateFees environment for evaluations. -/
def chainEnvEx : ChainEnv :=
  { trxCount := 7, gasPrice := 5000000000, estimateGas := 21000, tokens := [usdtToken] }

/-- Concrete getBalance environment whose raw token balance is
2 ^ 53 + 1, the first integer an IEEE-754 double cannot represent. -/
def balanceEnvEx : BalanceEnv :=
  { tokens := [usdtToken], weiBalance := 0, tokenBalance := 9007199254740993 }

/-- Concrete transaction whose recipient is the empty string: a possible
member of a watch set, yet falsy under the JavaScript guard of the
monitor. -/
def txEmptyTo : ITransaction :=
  { blockHash := "0xb0", blockNumber := 1, fromAddr := "0xf0", gas := 21000,
    gasPrice := 5, hash := "h1", input := "0x", nonce := 0, toAddr := some "",
    transactionIndex := 0, value := 1 }

/-- Concrete transaction paying a watched recipient. -/
def txWatched : ITransaction :=
  { blockHash := "0xb3", blockNumber := 3, fromAddr := "0xf3", gas := 21000,
    gasPrice := 5, hash := "h3", input := "0x", nonce := 2, toAddr := some "0xdef",
    transactionIndex := 0, value := 5 }

/-- Concrete transaction whose recipient is the lowercase form of a
watched address, for the case-sensitivity scenario. -/
def txCase : ITransaction :=
  { blockHash := "0xb2", blockNumber := 2, fromAddr := "0xf2", gas := 21000,
    gasPrice := 5, hash := "h2", input := "0x", nonce := 1, toAddr := some "0xabc",
    transactionIndex := 0, value := 3 }

/-- Helper: an encoded transfer call always starts with the 10-character
selector prefix, so it is never the empty string. -/
theorem encodeTransfer_ne_empty (toAddr : String) (value : Int) :
    encodeTransfer toAddr value ≠ "" := by
  intro h
  have hlen := congrArg String.length h
  simp only [encodeTransfer, String.length_append] at hlen
  have h10 : ("0xa9059cbb" : String).length = 10 := rfl
  have h0 : ("" : String).length = 0 := rfl
  omega

/-- Claim C1: estimateFees is claimed to convert every non-negative
decimal amount string for a registered token to base units by exact
arbitrary-precision integer multiplication by 10 ^ decimals, the product
appearing in the encoded transfer call, in particular for fractional
amounts such as 1.5. The second conjunct shows the exact conversion and
its appearance in the call data for the integer amount 2 of the
registered 6-decimal token; the first conjunct evaluates the code at the
failing input: utils.toBN raises on the fractional string 1.5, so
estimateFees rejects the amount instead of converting it. -/
theorem claim1_token_fractional_amount_rejected :
    estimateFees chainEnvEx "0xSender" "0xRecipient" "1.5" (some "usdt") = none ∧
    estimateFees chainEnvEx "0xSender" "0xRecipient" "2" (some "usdt") =
      some { nonce := 7, toAddr := usdtToken.contractAddress, value := 0,
             gasLimit := 21000, gasPrice := 5000000000,
             data := some (encodeTransfer "0xRecipient" (2 * 10 ^ 6)) } :=
  ⟨by decide, by decide⟩

/-- Claim C2: getBalance is claimed to convert the raw base-unit token
balance to a decimal string by exact division by 10 ^ decimals with no
precision loss for balances up to 2 ^ 256. The code coerces the raw
balance through the JavaScript Number constructor, an IEEE-754 double,
before the bignumber.js division: at the balance 2 ^ 53 + 1 of the
registered 6-decimal token the returned string is the rounded
9007199254.740992 while the exact division yields 9007199254.740993,
although the balance is far below 2 ^ 256. -/
theorem claim2_token_balance_precision_lost :
    getBalance balanceEnvEx "0xHolder" (some "usdt") = "9007199254.740992" ∧
    decimalString balanceEnvEx.tokenBalance 6 = "9007199254.740993" ∧
    balanceEnvEx.tokenBalance < 2 ^ 256 :=
  ⟨by decide, by decide, by decide⟩

/-- Claim C3: the shape of the estimateFees descriptor. When the asset
is absent or the native asset (eth) and the amount converts through
toWei to a wei value v, the descriptor carries that v as its value, the
requested recipient, and no data field. When the asset is a registered
non-native token (the registry lookup by lowercased symbol succeeds) and
the amount converts through toBN, the descriptor carries value 0, the
token contract address as recipient, and a non-empty data field holding
the encoded transfer of amount times 10 ^ decimals. -/
theorem claim3_estimate_descriptor_shape (env : ChainEnv)
    (fromAddr toAddr amount : String) :
    (∀ v, toWeiInt amount 18 = some v →
      estimateFees env fromAddr toAddr amount none =
        some { nonce := env.trxCount, toAddr := toAddr, value := v,
               gasLimit := env.estimateGas, gasPrice := env.gasPrice, data := none } ∧
      estimateFees env fromAddr toAddr amount (some "eth") =
        some { nonce := env.trxCount, toAddr := toAddr, value := v,
               gasLimit := env.estimateGas, gasPrice := env.gasPrice, data := none }) ∧
    (∀ tk t a, isEth tk = false →
      (env.tokens.find? fun x => x.symbol == toLowerAscii tk) = some t →
      toBN amount = some a →
      estimateFees env fromAddr toAddr amount (some tk) =
        some { nonce := env.trxCount, toAddr := t.contractAddress, value := 0,
               gasLimit := env.estimateGas, gasPrice := env.gasPrice,
               data := some (encodeTransfer toAddr (a * 10 ^ t.decimals)) } ∧
      encodeTransfer toAddr (a * 10 ^ t.decimals) ≠ "") := by
  constructor
  · intro v hv
    constructor
    · simp [estimateFees, hv]
    · simp [estimateFees, isEth, hv]
  · intro tk t a htk hfind ha
    refine ⟨?_, encodeTransfer_ne_empty toAddr (a * 10 ^ t.decimals)⟩
    simp [estimateFees, htk, hfind, ha]

/-- Witness for claim C3 at concrete inputs: the native amount 1.5
converts to 1.5 * 10 ^ 18 wei with no data field, and the token amount 3
of the registered 6-decimal token yields value 0, the contract as
recipient and the encoded transfer of 3 * 10 ^ 6 as data. -/
theorem claim3_estimate_descriptor_shape_witness :
    estimateFees chainEnvEx "0xS" "0xR" "1.5" none =
      some { nonce := 7, toAddr := "0xR", value := 1500000000000000000,
             gasLimit := 21000, gasPrice := 5000000000, data := none } ∧
    estimateFees chainEnvEx "0xS" "0xR" "3" (some "usdt") =
      some { nonce := 7, toAddr := usdtToken.contractAddress, value := 0,
             gasLimit := 21000, gasPrice := 5000000000,
             data := some (encodeTransfer "0xR" (3 * 10 ^ usdtToken.decimals)) } :=
  ⟨((claim3_estimate_descriptor_shape chainEnvEx "0xS" "0xR" "1.5").1
      1500000000000000000 (by decide)).1,
   (((claim3_estimate_descriptor_shape chainEnvEx "0xS" "0xR" "3").2
      "usdt" usdtToken 3 (by decide) (by decide) (by decide)).1)⟩

/-- Claim C4: createWallet is deterministic in the mnemonic. With the
same non-empty caller-supplied mnemonic and no raw private key, two runs
differing only in the randomly generated fallback phrase return the very
same wallet record — identical address, public key and private key —
because the entropy source is consulted only when no mnemonic is
supplied. -/
theorem claim4_createWallet_deterministic (c : Crypto) (fresh1 fresh2 : String)
    (opts : ICreateWalletOptions) (m : String)
    (hm : opts.mnemonics = some m) (hne : m ≠ "") (hpk : opts.privateKey = none) :
    createWallet c fresh1 (some opts) = createWallet c fresh2 (some opts) := by
  simp [createWallet, resolveMnemonics, hm, hne, hpk]

/-- Witness for claim C4 at a concrete 12-word mnemonic and two distinct
entropy draws. -/
theorem claim4_createWallet_deterministic_witness :
    createWallet cryptoEx "fresh one" (some optsDet) =
      createWallet cryptoEx "fresh two" (some optsDet) :=
  claim4_createWallet_deterministic cryptoEx "fresh one" "fresh two" optsDet
    mnemonic12 rfl (by decide) rfl

/-- Claim C5: when createWallet is given a raw private key (and a
supported wallet type), the returned privateKey is the hex rendering of
the utf8 bytes of the supplied key, the address is computed from the
public key of those bytes, the checksummed address is the checksum of
that address — while the returned publicKey field is still the public
key of the node derived from the mnemonic at the default path, not the
public key of the supplied raw key. -/
theorem claim5_createWallet_raw_key_fields (c : Crypto) (fresh : String)
    (opts : ICreateWalletOptions) (pk : String)
    (htype : opts.type ≠ some WalletTypes.MULTISIG)
    (hpk : opts.privateKey = some pk) (hne : pk ≠ "") :
    createWallet c fresh (some opts) =
      .ok { address := "0x" ++ bytesToHex (c.publicToAddress (c.privateToPublic (utf8Bytes pk))),
            checkSumAddress := c.toChecksumAddress
              ("0x" ++ bytesToHex (c.publicToAddress (c.privateToPublic (utf8Bytes pk)))),
            publicKey := bytesToHex
              (c.derive (c.fromMasterSeed
                 (c.mnemonicToSeed (resolveMnemonics (some opts) fresh)))
                 DEFAULT_DERIVATION_PATH).publicKey,
            privateKey := bytesToHex (utf8Bytes pk),
            mnemonics := resolveMnemonics (some opts) fresh } := by
  simp [createWallet, htype, hpk, hne]

/-- Witness for claim C5 at a concrete options record carrying the raw
key deadbeef. -/
theorem claim5_createWallet_raw_key_fields_witness :
    createWallet cryptoEx "unused fresh" (some optsRaw) =
      .ok { address := "0x" ++ bytesToHex (cryptoEx.publicToAddress
              (cryptoEx.privateToPublic (utf8Bytes "deadbeef"))),
            checkSumAddress := cryptoEx.toChecksumAddress
              ("0x" ++ bytesToHex (cryptoEx.publicToAddress
                (cryptoEx.privateToPublic (utf8Bytes "deadbeef")))),
            publicKey := bytesToHex
              (cryptoEx.derive (cryptoEx.fromMasterSeed
                 (cryptoEx.mnemonicToSeed (resolveMnemonics (some optsRaw) "unused fresh")))
                 DEFAULT_DERIVATION_PATH).publicKey,
            privateKey := bytesToHex (utf8Bytes "deadbeef"),
            mnemonics := resolveMnemonics (some optsRaw) "unused fresh" } :=
  claim5_createWallet_raw_key_fields cryptoEx "unused fresh" optsRaw "deadbeef"
    (by decide) rfl (by decide)

/-- Claim C6: for every mnemonic passing the 12-word validation and
every index, generateAddress returns the address (and its checksum form)
of the node derived at the default path with the terminal address-index
component replaced by the index — derivationPathFor, whose value at 0 is
exactly the default path, and whose index defaults to 1 when the caller
omits it — while the returned publicKey and privateKey fields are the
master node keys, not the per-index derived node keys. -/
theorem claim6_generateAddress_reports_master_keys (c : Crypto) (mnemonics : String)
    (derivationIndex : Nat) (hv : isValidMnemonic mnemonics = true) :
    (generateAddress c mnemonics derivationIndex =
      .ok { address := "0x" ++ bytesToHex (c.publicToAddress (c.privateToPublic
              (c.derive (c.fromMasterSeed (c.mnemonicToSeed mnemonics))
                (derivationPathFor derivationIndex)).privateKey)),
            checkSumAddress := c.toChecksumAddress ("0x" ++ bytesToHex (c.publicToAddress
              (c.privateToPublic
                (c.derive (c.fromMasterSeed (c.mnemonicToSeed mnemonics))
                  (derivationPathFor derivationIndex)).privateKey))),
            publicKey := bytesToHex (c.fromMasterSeed (c.mnemonicToSeed mnemonics)).publicKey,
            privateKey := bytesToHex (c.fromMasterSeed (c.mnemonicToSeed mnemonics)).privateKey,
            mnemonics := mnemonics }) ∧
    derivationPathFor 0 = DEFAULT_DERIVATION_PATH ∧
    generateAddress c mnemonics = generateAddress c mnemonics 1 := by
  refine ⟨?_, by decide, rfl⟩
  simp [generateAddress, hv]

/-- Witness for claim C6 at a concrete 12-word mnemonic and index 3. -/
theorem claim6_generateAddress_reports_master_keys_witness :
    generateAddress cryptoEx mnemonic12 3 =
      .ok { address := "0x" ++ bytesToHex (cryptoEx.publicToAddress (cryptoEx.privateToPublic
              (cryptoEx.derive (cryptoEx.fromMasterSeed (cryptoEx.mnemonicToSeed mnemonic12))
                (derivationPathFor 3)).privateKey)),
            checkSumAddress := cryptoEx.toChecksumAddress ("0x" ++ bytesToHex
              (cryptoEx.publicToAddress (cryptoEx.privateToPublic
                (cryptoEx.derive (cryptoEx.fromMasterSeed (cryptoEx.mnemonicToSeed mnemonic12))
                  (derivationPathFor 3)).privateKey))),
            publicKey := bytesToHex
              (cryptoEx.fromMasterSeed (cryptoEx.mnemonicToSeed mnemonic12)).publicKey,
            privateKey := bytesToHex
              (cryptoEx.fromMasterSeed (cryptoEx.mnemonicToSeed mnemonic12)).privateKey,
            mnemonics := mnemonic12 } :=
  (claim6_generateAddress_reports_master_keys cryptoEx mnemonic12 3 (by decide)).1

/-- Claim C7 counterexample: the claim states that every failed recheck
retrieval — the transaction being dropped, replaced, or not found
included — emits an UNCONFIRMED event. The node reports a dropped,
replaced or unknown hash by resolving eth.getTransaction with null
rather than rejecting; the catch block never runs and the truthiness
guard skips the null record, so the full per-hash sequence at such a
retrieval is the initial DATA event alone, with no UNCONFIRMED. -/
theorem claim7_null_retrieval_emits_nothing :
    subscribeHashEvents ["0xabc"] "0xhash1" (Except.ok none) =
      [MonitorEvent.DATA "0xhash1"] := rfl

/-- Claim C7 as amended: the monitor emits UNCONFIRMED with the error
and the hash exactly when the recheck promise rejects; a retrieval that
resolves with no transaction (null, as the node reports a dropped,
replaced or unknown hash) emits no follow-up event at all. -/
theorem claim7_unconfirmed_only_on_rejection (vault : List String) (hash e : String) :
    subscribeHashEvents vault hash (Except.error e) =
      [MonitorEvent.DATA hash, MonitorEvent.UNCONFIRMED e hash] ∧
    subscribeHashEvents vault hash (Except.ok none) = [MonitorEvent.DATA hash] :=
  ⟨rfl, rfl⟩

/-- Claim C8 counterexample: the claim states that a retrieved
transaction whose recipient is in the watch set yields exactly DATA then
NEW_PAYMENT. The watch set containing the empty string and a retrieved
transaction whose recipient is the empty string put that recipient in
the watch set, yet the JavaScript truthiness guard on tx.to treats the
empty string as false and the emitted sequence is DATA alone. -/
theorem claim8_empty_recipient_in_watch_set_dropped :
    txEmptyTo.toAddr = some "" ∧
    ((([""] : List String)).contains "" = true) ∧
    subscribeHashEvents [""] "h1" (Except.ok (some txEmptyTo)) = [MonitorEvent.DATA "h1"] :=
  ⟨rfl, by decide, by decide⟩

/-- Claim C8 as amended: for every observed hash, a recheck that
retrieves a transaction whose recipient is non-empty and in the watch
set emits exactly DATA then NEW_PAYMENT; a recheck that throws emits
exactly DATA then UNCONFIRMED; a recheck whose retrieved recipient is
not in the watch set emits exactly DATA with no follow-up event. -/
theorem claim8_per_hash_event_sequences (vault : List String) (hash : String)
    (tx : ITransaction) (e : String) :
    (∀ a, tx.toAddr = some a → a ≠ "" → vault.contains a = true →
      subscribeHashEvents vault hash (Except.ok (some tx)) =
        [MonitorEvent.DATA hash, MonitorEvent.NEW_PAYMENT tx]) ∧
    subscribeHashEvents vault hash (Except.error e) =
      [MonitorEvent.DATA hash, MonitorEvent.UNCONFIRMED e hash] ∧
    (∀ a, tx.toAddr = some a → vault.contains a = false →
      subscribeHashEvents vault hash (Except.ok (some tx)) = [MonitorEvent.DATA hash]) := by
  refine ⟨?_, rfl, ?_⟩
  · intro a ha hne hmem
    simp at hmem
    simp [subscribeHashEvents, subscribeRecheckEvents, ha, bne_iff_ne, hne, hmem]
  · intro a ha hmem
    simp at hmem
    simp [subscribeHashEvents, subscribeRecheckEvents, ha, hmem]

/-- Witness for the amended claim C8 at concrete inputs covering all
three cases. -/
theorem claim8_per_hash_event_sequences_witness :
    subscribeHashEvents ["0xdef"] "h3" (Except.ok (some txWatched)) =
      [MonitorEvent.DATA "h3", MonitorEvent.NEW_PAYMENT txWatched] ∧
    subscribeHashEvents ["0xdef"] "h3" (Except.error "boom") =
      [MonitorEvent.DATA "h3", MonitorEvent.UNCONFIRMED "boom" "h3"] ∧
    subscribeHashEvents ["0xother"] "h3" (Except.ok (some txWatched)) =
      [MonitorEvent.DATA "h3"] :=
  ⟨(claim8_per_hash_event_sequences ["0xdef"] "h3" txWatched "boom").1
      "0xdef" rfl (by decide) (by decide),
   (claim8_per_hash_event_sequences ["0xdef"] "h3" txWatched "boom").2.1,
   (claim8_per_hash_event_sequences ["0xother"] "h3" txWatched "boom").2.2
      "0xdef" rfl (by decide)⟩

/-- Claim C9: watch-set membership is decided by raw case-sensitive
string comparison. For a watch set holding one address and a retrieved
transaction whose recipient agrees with it up to letter case but differs
as a raw string, the per-hash sequence is DATA alone: no NEW_PAYMENT is
emitted and the payment is silently dropped. -/
theorem claim9_case_mismatch_drops_payment (watched recipient hash : String)
    (tx : ITransaction) (hto : tx.toAddr = some recipient)
    (hcase : toLowerAscii watched = toLowerAscii recipient)
    (hne : watched ≠ recipient) :
    subscribeHashEvents [watched] hash (Except.ok (some tx)) = [MonitorEvent.DATA hash] := by
  simp [subscribeHashEvents, subscribeRecheckEvents, hto]
  exact fun _ => Ne.symm hne

/-- Witness for claim C9 at the concrete scenario of the specification:
watch set holding the uppercase 0xABC, recipient the lowercase 0xabc. -/
theorem claim9_case_mismatch_drops_payment_witness :
    toLowerAscii "0xABC" = toLowerAscii "0xabc" ∧ "0xABC" ≠ "0xabc" ∧
    subscribeHashEvents ["0xABC"] "h2" (Except.ok (some txCase)) = [MonitorEvent.DATA "h2"] :=
  ⟨by decide, by decide,
   claim9_case_mismatch_drops_payment "0xABC" "0xabc" "h2" txCase rfl (by decide) (by decide)⟩

/-- Claim C10: setNet assigns only the net field — the provider and
socketProvider of any wallet state are untouched — so on a wallet
constructed for one network and switched to another, send signs against
the chain identifier of the new network while broadcasting through the
HTTP endpoint of the originally constructed network. -/
theorem claim10_setNet_only_updates_net (w : WalletState) (net0 net1 : NetTypes) :
    (setNet w net1).net = net1 ∧
    (setNet w net1).provider = w.provider ∧
    (setNet w net1).socketProvider = w.socketProvider ∧
    sendChannel (setNet (mkWallet net0) net1) = (chainOf net1, httpProviderUrl net0) :=
  ⟨rfl, rfl, rfl, rfl⟩

end EthWalletUtil
